import Mathlib

/-!
Verification development for the pharmacy outbreak-detection engine
(`analyze_sales_spike_factors` and `calculate_outbreak_confidence` in
`components/disease_prediction.py`).

Modelling conventions:
* pandas DataFrames are modelled as typed lists of records (`SalesRecord`,
  `Campaign`), matching the data contract of the engine;
* calendar timestamps are modelled by a `Date` structure together with an
  epoch-day conversion (Gregorian civil calendar); comparisons and timedelta
  arithmetic on timestamps become integer arithmetic on epoch days;
* Python floats are modelled as exact rationals.  Every decision threshold in
  the source (0.8, 0.5, 0.9, 0.7, 1.5, 0.6, 0.3, 50, 100, ...) compares a
  ratio of small integers against a literal, and at every integer boundary the
  rounded float product coincides with the exact rational, so the rational
  model decides each branch exactly as the float code does;
* the free-text `details` string and the display label `current_period` of an
  analysis are presentation-only and are elided from the model;
* the in-place write of `debug_info` performed by the scorer is modelled by
  returning the post-call state of its argument as a second component.
-/

/-- Calendar date (year, month 1..12, day 1..31). -/
structure Date where
  year : Int
  month : Nat
  day : Nat
deriving DecidableEq, Repr

/-- Days since 1970-01-01 of a civil date (Gregorian proleptic calendar,
standard days-from-civil algorithm, as used by pandas timestamps). -/
def daysFromCivil (y : Int) (m d : Nat) : Int :=
  let y2 : Int := if m ≤ 2 then y - 1 else y
  let era : Int := (if 0 ≤ y2 then y2 else y2 - 399) / 400
  let yoe : Int := y2 - era * 400
  let mp : Nat := (m + 9) % 12
  let doy : Int := ((153 * mp + 2) / 5 : Nat) + d - 1
  let doe : Int := yoe * 365 + yoe / 4 - yoe / 100 + doy
  era * 146097 + doe - 719468

/-- Epoch-day number of a `Date`. -/
def epochDays (d : Date) : Int :=
  daysFromCivil d.year d.month d.day

/-- ISO day-of-week, 1 = Monday .. 7 = Sunday (1970-01-01 was a Thursday). -/
def isoDow (e : Int) : Int :=
  (e + 3).emod 7 + 1

/-- Number of the last ISO week of year `y` (52 or 53): the ISO week of
December 28. -/
def lastIsoWeek (y : Int) : Nat :=
  let e := epochDays ⟨y, 12, 28⟩
  let ordinal := e - epochDays ⟨y, 1, 1⟩ + 1
  ((ordinal - isoDow e + 10) / 7).toNat

/-- ISO week number of a date, as returned by `date.dt.isocalendar().week`. -/
def isoWeekOf (d : Date) : Nat :=
  let e := epochDays d
  let ordinal := e - epochDays ⟨d.year, 1, 1⟩ + 1
  let w := (ordinal - isoDow e + 10) / 7
  if w < 1 then lastIsoWeek (d.year - 1)
  else if (lastIsoWeek d.year : Int) < w then 1
  else w.toNat

/-- One transactional sales line (one row of the sales DataFrame). -/
structure SalesRecord where
  medicine_name : String
  category : String
  branch_name : String
  date : Date
  hour : Nat
  age_group : String
  quantity : ℚ
deriving DecidableEq, Repr

/-- One promotional campaign (one row of the campaigns DataFrame).  The
columns not read by the engine (name, discount, budget) are kept as plain
data. -/
structure Campaign where
  campaign_name : String
  category : String
  discount_pct : ℚ
  budget : ℚ
  start_date : Date
  end_date : Date
deriving DecidableEq, Repr

/-- Analysis period granularity selected by the caller. -/
inductive PeriodType where
  | Weekly
  | Monthly
deriving DecidableEq, Repr

/-- Impact tier of a detected factor. -/
inductive Impact where
  | high
  | medium
  | low
deriving DecidableEq, Repr

/-- A detected contextual factor.  The `reduces` / `increases` booleans model
presence of the `reduces_outbreak_probability` / `increases_outbreak_probability`
keys of the factor dict (a missing key reads as `False` through `.get`). -/
structure Factor where
  type : String
  impact : Impact
  reduces : Bool
  increases : Bool
deriving DecidableEq, Repr

/-- The scoring breakdown the scorer writes into the analysis under
`debug_info` (lines 390-406 of the source). -/
structure DebugInfo where
  spike_percentage : ℚ
  spike_direction : String
  base_risk_from_spike : ℚ
  reducing_factors_count : Nat
  increasing_factors_count : Nat
  reducing_total : ℚ
  increasing_total : ℚ
  final_confidence : ℚ
  current_sales : ℚ
  baseline_avg : ℚ
  calculation_method : String
  decreasing_sales_cap_applied : Bool
  max_risk_cap : ℚ
deriving DecidableEq, Repr

/-- The analysis record built by `analyze_sales_spike_factors` (the
presentation-only `current_period` label and per-factor `details` strings are
elided). -/
structure Analysis where
  medicine : String
  period_type : PeriodType
  current_sales : ℚ
  baseline_avg : ℚ
  spike_percentage : ℚ
  period_start : Date
  period_end : Date
  factors : List Factor
  insufficient_data : Bool
  period_count : Nat
  debug_info : Option DebugInfo
deriving DecidableEq, Repr

/-- Period key a record's date is assigned to: calendar year with ISO week
number for weekly analysis (the source combines `dt.year` with
`isocalendar().week`), year-month for monthly analysis. -/
def periodKeyOf (pt : PeriodType) (d : Date) : Int × Nat :=
  match pt with
  | .Weekly => (d.year, isoWeekOf d)
  | .Monthly => (d.year, d.month)

/-- One aggregated period bucket (one row of `period_sales`). -/
structure Period where
  key : Int × Nat
  total_quantity : ℚ
  start_date : Date
  end_date : Date
  period_days : Int
deriving DecidableEq, Repr

/-- Placeholder period (never selected by the engine on reachable paths). -/
def defaultPeriod : Period :=
  { key := (0, 0), total_quantity := 0, start_date := ⟨1970, 1, 1⟩,
    end_date := ⟨1970, 1, 1⟩, period_days := 1 }

/-- Total quantity of a list of sales records (`quantity` column sum). -/
def totalQty (l : List SalesRecord) : ℚ :=
  (l.map (fun r => r.quantity)).sum

/-- Smallest epoch day among the records (0 on the empty list, which the
engine never queries). -/
def minEpoch : List SalesRecord → Int
  | [] => 0
  | r :: rs => rs.foldl (fun m x => min m (epochDays x.date)) (epochDays r.date)

/-- Largest epoch day among the records. -/
def maxEpoch : List SalesRecord → Int
  | [] => 0
  | r :: rs => rs.foldl (fun m x => max m (epochDays x.date)) (epochDays r.date)

/-- A date of minimal epoch day among the records (`date.min()`). -/
def minDateBy : List SalesRecord → Date
  | [] => ⟨1970, 1, 1⟩
  | r :: rs => rs.foldl (fun b x => if epochDays x.date < epochDays b then x.date else b) r.date

/-- A date of maximal epoch day among the records (`date.max()`). -/
def maxDateBy : List SalesRecord → Date
  | [] => ⟨1970, 1, 1⟩
  | r :: rs => rs.foldl (fun b x => if epochDays b < epochDays x.date then x.date else b) r.date

/-- Aggregate one period bucket: quantity sum, min and max date, span in
days. -/
def mkPeriod (k : Int × Nat) (bucket : List SalesRecord) : Period :=
  { key := k
    total_quantity := totalQty bucket
    start_date := minDateBy bucket
    end_date := maxDateBy bucket
    period_days := maxEpoch bucket - minEpoch bucket + 1 }

/-- Insert a period into a list sorted ascending by start date. -/
def insertByStart (p : Period) : List Period → List Period
  | [] => [p]
  | q :: qs =>
      if epochDays p.start_date ≤ epochDays q.start_date then p :: q :: qs
      else q :: insertByStart p qs

/-- Sort periods ascending by start date (`sort_values('start_date')`). -/
def sortByStart (l : List Period) : List Period :=
  l.foldr insertByStart []

/-- Group a medicine's records into periods and sort chronologically
(`groupby('period_key').agg(...)` followed by the start-date sort). -/
def periodsOf (pt : PeriodType) (ms : List SalesRecord) : List Period :=
  let keys := (ms.map (fun r => periodKeyOf pt r.date)).dedup
  sortByStart (keys.map (fun k => mkPeriod k (ms.filter (fun r => decide (periodKeyOf pt r.date = k)))))

/-- Minimum span in days for a period to count as complete (line 83-86). -/
def minDays (pt : PeriodType) : Int :=
  match pt with
  | .Weekly => 5
  | .Monthly => 20

/-- Nominal period length in days used by the insufficient-data fallback. -/
def nominalLen (pt : PeriodType) : Int :=
  match pt with
  | .Weekly => 7
  | .Monthly => 30

/-- Valid (complete-enough) periods: span at least the type's threshold. -/
def validPeriodsOf (pt : PeriodType) (ms : List SalesRecord) : List Period :=
  (periodsOf pt ms).filter (fun p => decide (minDays pt ≤ p.period_days))

/-- Whole-history day span of the medicine (`(max - min).days + 1`). -/
def totalDaysOf (ms : List SalesRecord) : ℚ :=
  ((maxEpoch ms - minEpoch ms + 1 : Int) : ℚ)

/-- Whole-history daily average quantity. -/
def dailyAvgOf (ms : List SalesRecord) : ℚ :=
  totalQty ms / totalDaysOf ms

/-- Trailing calendar window of nominal length ending at the latest record
(`date >= date.max() - Timedelta(days=6)` resp. `days=29`). -/
def trailingWindow (pt : PeriodType) (ms : List SalesRecord) : List SalesRecord :=
  ms.filter (fun r => decide (maxEpoch ms - (nominalLen pt - 1) ≤ epochDays r.date))

/-- Baseline analysis in insufficient-data mode (fewer than 2 valid periods,
lines 94-131 of the source). -/
def insufficientAnalysis (med : String) (pt : PeriodType) (ms : List SalesRecord) : Analysis :=
  let expected := dailyAvgOf ms * ((nominalLen pt : Int) : ℚ)
  let recentQ := totalQty (trailingWindow pt ms)
  let spike := if 0 < expected then (recentQ - expected) / expected * 100 else 0
  { medicine := med
    period_type := pt
    current_sales := recentQ
    baseline_avg := expected
    spike_percentage := spike
    period_start := minDateBy ms
    period_end := maxDateBy ms
    factors := []
    insufficient_data := true
    period_count := 1
    debug_info := none }

/-- Baseline analysis in sufficient-data mode (lines 132-152): current is the
most recent valid period, baseline the mean of all earlier valid periods. -/
def sufficientAnalysis (med : String) (pt : PeriodType) (valid : List Period) : Analysis :=
  let recent := valid.getLastD defaultPeriod
  let baseline := valid.dropLast
  let baseline_avg := (baseline.map (fun p => p.total_quantity)).sum / (baseline.length : ℚ)
  let spike := if 0 < baseline_avg then (recent.total_quantity - baseline_avg) / baseline_avg * 100 else 0
  { medicine := med
    period_type := pt
    current_sales := recent.total_quantity
    baseline_avg := baseline_avg
    spike_percentage := spike
    period_start := recent.start_date
    period_end := recent.end_date
    factors := []
    insufficient_data := false
    period_count := valid.length
    debug_info := none }

/-- Does the character list start with the pattern? -/
def listStartsWith : List Char → List Char → Bool
  | [], _ => true
  | _ :: _, [] => false
  | a :: as, b :: bs => a == b && listStartsWith as bs

/-- Does the character list contain the pattern as a contiguous run? -/
def listContainsSub (pat : List Char) : List Char → Bool
  | [] => listStartsWith pat []
  | c :: cs => listStartsWith pat (c :: cs) || listContainsSub pat cs

/-- Python's `pat in s` substring test. -/
def containsSub (pat s : String) : Bool :=
  listContainsSub pat.toList s.toList

/-- Lower-casing of a string, character by character (`str.lower()`). -/
def lowerStr (s : String) : String :=
  String.mk (s.data.map Char.toLower)

/-- Category of the first matching record (`category.iloc[0]` guarded by
`len > 0`, empty string otherwise). -/
def firstCategory : List SalesRecord → String
  | [] => ""
  | r :: _ => r.category

/-- Transaction slice of the current period used by the factor checks
(lines 187-200): trailing nominal window in insufficient-data mode, the
current period's date range otherwise. -/
def currentSlice (pt : PeriodType) (ms : List SalesRecord) (a0 : Analysis) : List SalesRecord :=
  if a0.insufficient_data then
    trailingWindow pt ms
  else
    ms.filter (fun r =>
      decide (epochDays a0.period_start ≤ epochDays r.date ∧
              epochDays r.date ≤ epochDays a0.period_end))

/-- Campaigns of the medicine's category whose date range overlaps the
analysis period (lines 163-167). -/
def activeCampaigns (cat : String) (camps : List Campaign) (ps pe : Int) : List Campaign :=
  camps.filter (fun c =>
    decide (epochDays c.start_date ≤ pe ∧ ps ≤ epochDays c.end_date ∧ c.category = cat))

/-- Overlap fraction of the analysis period covered by the campaign, as a
percentage (lines 173-178). -/
def overlapPct (c : Campaign) (ps pe : Int) : ℚ :=
  let cs := max (epochDays c.start_date) ps
  let ce := min (epochDays c.end_date) pe
  ((ce - cs + 1 : Int) : ℚ) / ((pe - ps + 1 : Int) : ℚ) * 100

/-- Factor 1 (lines 158-185): first active campaign of matching category;
impact high when the overlap covers more than half of the period. -/
def campaignFactors (ms : List SalesRecord) (camps : List Campaign) (a0 : Analysis) : List Factor :=
  match ms with
  | [] => []
  | r :: _ =>
    match activeCampaigns r.category camps (epochDays a0.period_start) (epochDays a0.period_end) with
    | [] => []
    | c :: _ =>
      [{ type := "campaign"
         impact := if 50 < overlapPct c (epochDays a0.period_start) (epochDays a0.period_end)
                   then .high else .medium
         reduces := true, increases := false }]

/-- Number of distinct values of a string column. -/
def nuniqueStr (f : SalesRecord → String) (l : List SalesRecord) : Nat :=
  ((l.map f).dedup).length

/-- Factor 2 (lines 202-222): share of branches touched by the current
period's transactions; high at 80 percent or more, medium at 50. -/
def geoFactors (sales cur : List SalesRecord) : List Factor :=
  let affected := nuniqueStr (fun r => r.branch_name) cur
  let total := nuniqueStr (fun r => r.branch_name) sales
  let spread : ℚ := if 0 < total then (affected : ℚ) / (total : ℚ) else 0
  if (4 : ℚ)/5 ≤ spread then
    [{ type := "geographic_spread", impact := .high, reduces := false, increases := true }]
  else if (1 : ℚ)/2 ≤ spread then
    [{ type := "geographic_spread", impact := .medium, reduces := false, increases := true }]
  else []

/-- Factor 3 (lines 224-244): share of age groups touched; high at 90
percent or more, medium at 70. -/
def demoFactors (sales cur : List SalesRecord) : List Factor :=
  let groups := nuniqueStr (fun r => r.age_group) cur
  let total := nuniqueStr (fun r => r.age_group) sales
  let pct : ℚ := if 0 < total then (groups : ℚ) / (total : ℚ) else 0
  if (9 : ℚ)/10 ≤ pct then
    [{ type := "demographics", impact := .high, reduces := false, increases := true }]
  else if (7 : ℚ)/10 ≤ pct then
    [{ type := "demographics", impact := .medium, reduces := false, increases := true }]
  else []

/-- Factor 4 (lines 246-258, weekly analysis only): with at least 3 distinct
sale days in the period, a high-impact factor when at least 60 percent of the
days exceed 1.5 times the mean daily quantity. -/
def sustainedFactors (pt : PeriodType) (cur : List SalesRecord) : List Factor :=
  match pt with
  | .Monthly => []
  | .Weekly =>
    let days := (cur.map (fun r => epochDays r.date)).dedup
    if 3 ≤ days.length then
      let totals := days.map (fun d => totalQty (cur.filter (fun r => decide (epochDays r.date = d))))
      let mean := totals.sum / (days.length : ℚ)
      let high := (totals.filter (fun q => decide (mean * (3/2) < q))).length
      if (days.length : ℚ) * (3/5) ≤ (high : ℚ) then
        [{ type := "sustained_pattern", impact := .high, reduces := false, increases := true }]
      else []
    else []

/-- Factor 5 (lines 260-273): group the slice by (branch, date, hour) as a
purchase event; medium-impact factor when more than 30 percent of events span
more than one category. -/
def crossFactors (cur : List SalesRecord) : List Factor :=
  let keys := (cur.map (fun r => (r.branch_name, epochDays r.date, r.hour))).dedup
  let catCounts := keys.map (fun k =>
    ((cur.filter (fun r => decide ((r.branch_name, epochDays r.date, r.hour) = k))).map
      (fun r => r.category)).dedup.length)
  let multi := (catCounts.filter (fun n => decide (1 < n))).length
  if (keys.length : ℚ) * (3/10) < (multi : ℚ) then
    [{ type := "cross_category", impact := .medium, reduces := false, increases := true }]
  else []

/-- Factor 6 (lines 275-295): seasonal expectation for Cold and Flu in
flu-season months, or categories containing "allergy" in allergy-season
months; keyed to the month of the period start. -/
def seasonalFactors (ms : List SalesRecord) (a0 : Analysis) : List Factor :=
  let m := a0.period_start.month
  let cat := firstCategory ms
  if cat = "Cold & Flu" ∧ m ∈ [10, 11, 12, 1, 2, 3] then
    [{ type := "seasonal_expected", impact := .medium, reduces := true, increases := false }]
  else if containsSub "allergy" (lowerStr cat) ∧ m ∈ [3, 4, 5, 9, 10] then
    [{ type := "seasonal_expected", impact := .medium, reduces := true, increases := false }]
  else []

/-- All six factor checks, in source order. -/
def detectFactors (pt : PeriodType) (sales ms : List SalesRecord) (camps : List Campaign)
    (a0 : Analysis) : List Factor :=
  let cur := currentSlice pt ms a0
  campaignFactors ms camps a0 ++ geoFactors sales cur ++ demoFactors sales cur ++
    sustainedFactors pt cur ++ crossFactors cur ++ seasonalFactors ms a0

/-- The sales rows matching the queried medicine name. -/
def msOf (med : String) (sales : List SalesRecord) : List SalesRecord :=
  sales.filter (fun r => r.medicine_name == med)

/-- The full spike-factor analysis (`analyze_sales_spike_factors`): `none`
when no record matches the medicine, otherwise a baseline analysis (dual
mode) with the detected factors attached. -/
def analyze_sales_spike_factors (med : String) (pt : PeriodType)
    (sales : List SalesRecord) (camps : List Campaign) : Option Analysis :=
  let ms := msOf med sales
  if ms.length = 0 then none
  else
    let a0 :=
      if (validPeriodsOf pt ms).length < 2 then insufficientAnalysis med pt ms
      else sufficientAnalysis med pt (validPeriodsOf pt ms)
    some { a0 with factors := detectFactors pt sales ms camps a0 }

/-- Base confidence from spike direction and magnitude (lines 304-335). -/
def baseConfidence (spike : ℚ) : ℚ :=
  if spike < 0 then
    if 50 < |spike| then 1
    else if 30 < |spike| then 2
    else if 15 < |spike| then 4
    else if 5 < |spike| then 7
    else 10
  else
    if spike < 15 then 5
    else if spike < 30 then 10
    else if spike < 60 then 20
    else if spike < 100 then 35
    else if spike < 200 then 55
    else 75

/-- Adjustment subtracted for one reducing factor (lines 344-350 when the
spike is negative, 361-367 otherwise). -/
def redAdj (neg : Bool) (f : Factor) : ℚ :=
  if neg then
    if f.impact = .high then 2 else if f.impact = .medium then 1 else 1/2
  else
    if f.impact = .high then 15 else if f.impact = .medium then 8 else 4

/-- Adjustment added for one increasing factor (lines 352-358 when the spike
is negative, 369-375 otherwise). -/
def incAdj (neg : Bool) (f : Factor) : ℚ :=
  if neg then
    if f.impact = .high then 2 else if f.impact = .medium then 1 else 1/2
  else
    if f.impact = .high then 12 else if f.impact = .medium then 6 else 3

/-- Confidence after the factor adjustments, before any cap (lines 337-375). -/
def adjustedConfidence (a : Analysis) : ℚ :=
  let neg := decide (a.spike_percentage < 0)
  baseConfidence a.spike_percentage
    - ((a.factors.filter (fun f => f.reduces)).map (redAdj neg)).sum
    + ((a.factors.filter (fun f => f.increases)).map (incAdj neg)).sum

/-- Hard ceiling for decreasing sales, keyed to the decrease size
(lines 377-387). -/
def cappedConfidence (a : Analysis) : ℚ :=
  let c := adjustedConfidence a
  if a.spike_percentage < 0 then
    min c (if 50 < |a.spike_percentage| then 5
           else if 20 < |a.spike_percentage| then 10
           else 15)
  else c

/-- The breakdown dict the scorer writes into the analysis (lines 390-406).
`base_risk_from_spike` stores the running `confidence` variable, which at
that point already carries the factor adjustments and the negative-spike
cap. -/
def debugInfoOf (a : Analysis) : DebugInfo :=
  let spike := a.spike_percentage
  let red := a.factors.filter (fun f => f.reduces)
  let inc := a.factors.filter (fun f => f.increases)
  { spike_percentage := spike
    spike_direction := if spike < 0 then "Decreasing" else "Increasing"
    base_risk_from_spike := cappedConfidence a
    reducing_factors_count := red.length
    increasing_factors_count := inc.length
    reducing_total := -((red.map (redAdj (decide (spike < 0)))).sum)
    increasing_total := (inc.map (incAdj (decide (spike < 0)))).sum
    final_confidence := max 0 (min 100 (cappedConfidence a))
    current_sales := a.current_sales
    baseline_avg := a.baseline_avg
    calculation_method := if a.insufficient_data then "insufficient_data" else "sufficient_periods"
    decreasing_sales_cap_applied := decide (spike < 0)
    max_risk_cap := if spike < -50 then 5 else if spike < -20 then 10
                    else if spike < 0 then 15 else 100 }

/-- The confidence scorer (`calculate_outbreak_confidence`).  The first
component is the returned score `max(0, min(100, confidence))`; the second is
the post-call state of the analysis argument, which the source mutates in
place by storing the breakdown under `debug_info`. -/
def calculate_outbreak_confidence (a : Analysis) : ℚ × Analysis :=
  (max 0 (min 100 (cappedConfidence a)),
   { a with debug_info := some (debugInfoOf a) })

/-- Caller-visible state of the two input collections after
`analyze_sales_spike_factors` returns: the source copies the sales frame
before its date-conversion write (line 49) and only filters the campaigns
frame, so both originals are untouched. -/
def analyzeInputsAfter (_med : String) (_pt : PeriodType)
    (sales : List SalesRecord) (camps : List Campaign) :
    List SalesRecord × List Campaign :=
  (sales, camps)

/-- The last element (with fallback) of a nonempty list is a member. -/
theorem getLastD_mem {α : Type} : ∀ (l : List α) (d : α), l ≠ [] → l.getLastD d ∈ l
  | [], _, h => absurd rfl h
  | [x], d, _ => by simp [List.getLastD_cons]
  | x :: y :: ys, d, _ => by
      rw [List.getLastD_cons]
      exact List.mem_cons_of_mem x (getLastD_mem (y :: ys) x (by simp))

/-- Example analysis used as an `Option.getD` fallback in closed statements. -/
def anDefault : Analysis :=
  { medicine := "", period_type := .Weekly, current_sales := 0, baseline_avg := 0,
    spike_percentage := 0, period_start := ⟨1970, 1, 1⟩, period_end := ⟨1970, 1, 1⟩,
    factors := [], insufficient_data := true, period_count := 1, debug_info := none }

/-- Sales rows used in several concrete instances below: a single early
record and one far-away heavy record of the same medicine. -/
def exR1 : SalesRecord :=
  { medicine_name := "M", category := "C", branch_name := "B1",
    date := ⟨2020, 1, 1⟩, hour := 0, age_group := "A1", quantity := 1 }

/-- Heavy trailing record, 999 days after `exR1`. -/
def exR2 : SalesRecord :=
  { medicine_name := "M", category := "C", branch_name := "B1",
    date := ⟨2022, 9, 26⟩, hour := 0, age_group := "A1", quantity := 1000 }

/-- Two-record history: both monthly buckets are 1-day spans, so the engine
uses the insufficient-data fallback; the trailing 30-day window holds 1000 of
the 1001 total units over 1000 days. -/
def exC1sales : List SalesRecord := [exR1, exR2]

/-- C2: for every analysis, the confidence returned by the scorer lies in
the interval [0, 100]. -/
theorem C2_theorem (a : Analysis) :
    0 ≤ (calculate_outbreak_confidence a).1 ∧ (calculate_outbreak_confidence a).1 ≤ 100 :=
  ⟨le_max_left 0 _, max_le (by norm_num) (min_le_left _ _)⟩

/-- C3: for every analysis whose spike percentage is below -50, the scorer
returns at most 5, regardless of the factor list; the ceiling is the
post-adjustment `min` of the negative-spike branch. -/
theorem C3_theorem (a : Analysis) (h : a.spike_percentage < -50) :
    (calculate_outbreak_confidence a).1 ≤ 5 := by
  have hneg : a.spike_percentage < 0 := lt_trans h (by norm_num)
  have habs : 50 < |a.spike_percentage| := by
    rw [abs_of_neg hneg]; linarith
  have hcap : cappedConfidence a ≤ 5 := by
    simp only [cappedConfidence, if_pos hneg, if_pos habs]
    exact min_le_right _ _
  calc (calculate_outbreak_confidence a).1
      = max 0 (min 100 (cappedConfidence a)) := rfl
    _ ≤ 5 := max_le (by norm_num) (le_trans (min_le_right _ _) hcap)

/-- Analysis with a 60 percent sales decrease and two increasing factors,
used to witness the negative-spike ceiling. -/
def exA3 : Analysis :=
  { medicine := "M", period_type := .Weekly, current_sales := 4, baseline_avg := 10,
    spike_percentage := -60, period_start := ⟨2021, 1, 1⟩, period_end := ⟨2021, 1, 7⟩,
    factors := [{ type := "geographic_spread", impact := .high, reduces := false, increases := true },
                { type := "demographics", impact := .medium, reduces := false, increases := true }],
    insufficient_data := false, period_count := 3, debug_info := none }

/-- Witness for C3 at a concrete analysis with spike -60. -/
theorem C3_witness : (calculate_outbreak_confidence exA3).1 ≤ 5 :=
  C3_theorem exA3 (by norm_num [exA3])

/-- C5: the analyzer returns `none` exactly when no sales record matches the
queried medicine name; with a match it returns an analysis. -/
theorem C5_theorem (med : String) (pt : PeriodType) (sales : List SalesRecord)
    (camps : List Campaign) :
    analyze_sales_spike_factors med pt sales camps = none ↔ msOf med sales = [] := by
  simp only [analyze_sales_spike_factors]
  split_ifs with h
  · simp [List.length_eq_zero.mp h]
  · constructor
    · intro hc; exact absurd hc (by simp)
    · intro he; exact absurd (by rw [he]; rfl) h

/-- C7: the base score derived from the spike percentage alone is monotone
non-decreasing for rising non-negative spikes and non-increasing as the
magnitude of a decrease grows. -/
theorem C7_theorem (s1 s2 t1 t2 : ℚ) (hs2 : 0 ≤ s2) (hs : s2 < s1)
    (ht : t1 < t2) (ht2 : t2 < 0) :
    baseConfidence s2 ≤ baseConfidence s1 ∧ baseConfidence t1 ≤ baseConfidence t2 := by
  have ht1 : t1 < 0 := lt_trans ht ht2
  have hs1 : 0 ≤ s1 := le_trans hs2 (le_of_lt hs)
  constructor
  · unfold baseConfidence
    rw [if_neg (not_lt.mpr hs2), if_neg (not_lt.mpr hs1)]
    split_ifs <;> linarith
  · unfold baseConfidence
    rw [if_pos ht1, if_pos ht2]
    simp only [abs_of_neg ht1, abs_of_neg ht2]
    split_ifs <;> linarith

/-- Witness for C7 at the spikes 40 over 20 and -40 against -10. -/
theorem C7_witness :
    baseConfidence 20 ≤ baseConfidence 40 ∧ baseConfidence (-40) ≤ baseConfidence (-10) :=
  C7_theorem 40 20 (-40) (-10) (by norm_num) (by norm_num) (by norm_num) (by norm_num)

/-- Concrete analysis (fresh from the analyzer, no breakdown attached yet)
showing the scorer's in-place write. -/
def exA9 : Analysis :=
  { medicine := "M", period_type := .Weekly, current_sales := 50, baseline_avg := 20,
    spike_percentage := 150, period_start := ⟨2021, 1, 1⟩, period_end := ⟨2021, 1, 7⟩,
    factors := [], insufficient_data := false, period_count := 3, debug_info := none }

unseal Rat.mul Rat.add Rat.sub Rat.inv in
/-- C9 counterexample: the scorer does mutate the analysis passed to it: the
post-call state of the argument differs from the pre-call state. -/
theorem C9_counterexample : (calculate_outbreak_confidence exA9).2 ≠ exA9 := by decide

/-- C9 amended: the analyzer leaves its input collections unchanged (it
copies the sales frame before its date-conversion write), while the scorer
mutates the analysis passed to it in exactly one place: it stores the scoring
breakdown under `debug_info`, leaving every other field unchanged. -/
theorem C9_theorem (med : String) (pt : PeriodType) (sales : List SalesRecord)
    (camps : List Campaign) (a : Analysis) :
    analyzeInputsAfter med pt sales camps = (sales, camps) ∧
    (calculate_outbreak_confidence a).2.medicine = a.medicine ∧
    (calculate_outbreak_confidence a).2.period_type = a.period_type ∧
    (calculate_outbreak_confidence a).2.current_sales = a.current_sales ∧
    (calculate_outbreak_confidence a).2.baseline_avg = a.baseline_avg ∧
    (calculate_outbreak_confidence a).2.spike_percentage = a.spike_percentage ∧
    (calculate_outbreak_confidence a).2.period_start = a.period_start ∧
    (calculate_outbreak_confidence a).2.period_end = a.period_end ∧
    (calculate_outbreak_confidence a).2.factors = a.factors ∧
    (calculate_outbreak_confidence a).2.insufficient_data = a.insufficient_data ∧
    (calculate_outbreak_confidence a).2.period_count = a.period_count ∧
    (calculate_outbreak_confidence a).2.debug_info = some (debugInfoOf a) :=
  ⟨rfl, rfl, rfl, rfl, rfl, rfl, rfl, rfl, rfl, rfl, rfl, rfl⟩


/-- The analysis the engine returns on `exC1sales` (checked below): both
monthly buckets are single days, so insufficient-data mode fires; the
trailing 30-day window holds 1000 units against a projected baseline of
30.03, a spike of about 3230 percent. -/
def exC1analysis : Analysis :=
  { medicine := "M", period_type := .Monthly, current_sales := 1000,
    baseline_avg := 3003/100, spike_percentage := 9699700/3003,
    period_start := ⟨2020, 1, 1⟩, period_end := ⟨2022, 9, 26⟩,
    factors := [{ type := "geographic_spread", impact := .high, reduces := false, increases := true },
                { type := "demographics", impact := .high, reduces := false, increases := true }],
    insufficient_data := true, period_count := 1, debug_info := none }

unseal Rat.mul Rat.add Rat.sub Rat.inv in
/-- C1 counterexample: the analyzer reports spike percentages raw, with no
clamp; on a 1000-day two-record history whose quantity sits in the trailing
window it returns an analysis whose spike percentage is 9699700/3003, about
3230 percent, far above 500. -/
theorem C1_counterexample :
    analyze_sales_spike_factors "M" .Monthly exC1sales [] = some exC1analysis ∧
    500 < exC1analysis.spike_percentage := by
  constructor
  · decide
  · decide

/-- C1 amended: every analysis carries the raw spike percentage
`(current - baseline) / baseline * 100` when the baseline is positive and 0
otherwise; no clamp to [-500, 500] is applied, and magnitudes above 500 are
reachable. -/
theorem C1_theorem (med : String) (pt : PeriodType) (sales : List SalesRecord)
    (camps : List Campaign) (a : Analysis)
    (h : analyze_sales_spike_factors med pt sales camps = some a) :
    a.spike_percentage =
      if 0 < a.baseline_avg then (a.current_sales - a.baseline_avg) / a.baseline_avg * 100
      else 0 := by
  simp only [analyze_sales_spike_factors] at h
  split_ifs at h with h0 h1
  · rcases Option.some.inj h with rfl
    simp [insufficientAnalysis]
  · rcases Option.some.inj h with rfl
    simp [sufficientAnalysis]

unseal Rat.mul Rat.add Rat.sub Rat.inv in
/-- Witness for C1 amended at the concrete two-record history. -/
theorem C1_witness :
    exC1analysis.spike_percentage =
      if 0 < exC1analysis.baseline_avg then
        (exC1analysis.current_sales - exC1analysis.baseline_avg) / exC1analysis.baseline_avg * 100
      else 0 :=
  C1_theorem "M" .Monthly exC1sales [] exC1analysis (by decide)

/-- C4: with fewer than two valid periods the analyzer flags insufficient
data, projects the baseline as whole-history daily average times the nominal
period length, and takes the current quantity from the trailing nominal
window, not the whole dataset. -/
theorem C4_theorem (med : String) (pt : PeriodType) (sales : List SalesRecord)
    (camps : List Campaign) (a : Analysis)
    (h : analyze_sales_spike_factors med pt sales camps = some a)
    (hv : (validPeriodsOf pt (msOf med sales)).length < 2) :
    a.insufficient_data = true ∧
    a.baseline_avg = dailyAvgOf (msOf med sales) * ((nominalLen pt : Int) : ℚ) ∧
    a.current_sales = totalQty (trailingWindow pt (msOf med sales)) := by
  simp only [analyze_sales_spike_factors] at h
  split_ifs at h with h0
  rcases Option.some.inj h with rfl
  refine ⟨rfl, ?_, ?_⟩ <;> simp [insufficientAnalysis]

/-- The analysis the engine returns on the single-record history `[exR1]`:
one 1-day monthly bucket, zero valid periods, baseline 1 unit per day times
30, current quantity 1, spike -290/3 percent. -/
def exC4analysis : Analysis :=
  { medicine := "M", period_type := .Monthly, current_sales := 1,
    baseline_avg := 30, spike_percentage := -290/3,
    period_start := ⟨2020, 1, 1⟩, period_end := ⟨2020, 1, 1⟩,
    factors := [{ type := "geographic_spread", impact := .high, reduces := false, increases := true },
                { type := "demographics", impact := .high, reduces := false, increases := true }],
    insufficient_data := true, period_count := 1, debug_info := none }

unseal Rat.mul Rat.add Rat.sub Rat.inv in
/-- Witness for C4: a single-record history (one 1-day monthly bucket, zero
valid periods). -/
theorem C4_witness :
    exC4analysis.insufficient_data = true ∧
    exC4analysis.baseline_avg = dailyAvgOf (msOf "M" [exR1]) * ((nominalLen .Monthly : Int) : ℚ) ∧
    exC4analysis.current_sales = totalQty (trailingWindow .Monthly (msOf "M" [exR1])) :=
  C4_theorem "M" .Monthly [exR1] [] exC4analysis (by decide) (by decide)

/-- Every factor the campaign check emits is tagged `campaign` with high or
medium impact. -/
theorem mem_campaignFactors (ms : List SalesRecord) (camps : List Campaign) (a0 : Analysis)
    (f : Factor) (hf : f ∈ campaignFactors ms camps a0) :
    f.type = "campaign" ∧ (f.impact = .high ∨ f.impact = .medium) := by
  cases ms with
  | nil => cases hf
  | cons r rs =>
    rcases hact : activeCampaigns r.category camps (epochDays a0.period_start) (epochDays a0.period_end) with _ | ⟨c, cs⟩
    · simp only [campaignFactors, hact] at hf
      cases hf
    · simp only [campaignFactors, hact, List.mem_singleton] at hf
      subst hf
      refine ⟨rfl, ?_⟩
      split_ifs
      · exact Or.inl rfl
      · exact Or.inr rfl

/-- With an empty campaign collection, the campaign check emits nothing. -/
theorem campaignFactors_nil (ms : List SalesRecord) (a0 : Analysis) :
    campaignFactors ms [] a0 = [] := by
  cases ms <;> rfl

/-- Every factor the geographic-spread check emits. -/
theorem mem_geoFactors (sales cur : List SalesRecord) (f : Factor)
    (hf : f ∈ geoFactors sales cur) :
    f.type = "geographic_spread" ∧ (f.impact = .high ∨ f.impact = .medium) := by
  simp only [geoFactors] at hf
  split_ifs at hf <;>
    first
      | (rw [List.mem_singleton] at hf; subst hf; exact ⟨rfl, Or.inl rfl⟩)
      | (rw [List.mem_singleton] at hf; subst hf; exact ⟨rfl, Or.inr rfl⟩)
      | cases hf

/-- Every factor the demographic-spread check emits. -/
theorem mem_demoFactors (sales cur : List SalesRecord) (f : Factor)
    (hf : f ∈ demoFactors sales cur) :
    f.type = "demographics" ∧ (f.impact = .high ∨ f.impact = .medium) := by
  simp only [demoFactors] at hf
  split_ifs at hf <;>
    first
      | (rw [List.mem_singleton] at hf; subst hf; exact ⟨rfl, Or.inl rfl⟩)
      | (rw [List.mem_singleton] at hf; subst hf; exact ⟨rfl, Or.inr rfl⟩)
      | cases hf

/-- Every factor the sustained-pattern check emits. -/
theorem mem_sustainedFactors (pt : PeriodType) (cur : List SalesRecord) (f : Factor)
    (hf : f ∈ sustainedFactors pt cur) :
    f.type = "sustained_pattern" ∧ (f.impact = .high ∨ f.impact = .medium) := by
  cases pt with
  | Monthly => cases hf
  | Weekly =>
    simp only [sustainedFactors] at hf
    split_ifs at hf <;>
    first
      | (rw [List.mem_singleton] at hf; subst hf; exact ⟨rfl, Or.inl rfl⟩)
      | (rw [List.mem_singleton] at hf; subst hf; exact ⟨rfl, Or.inr rfl⟩)
      | cases hf

/-- Every factor the cross-category check emits. -/
theorem mem_crossFactors (cur : List SalesRecord) (f : Factor)
    (hf : f ∈ crossFactors cur) :
    f.type = "cross_category" ∧ (f.impact = .high ∨ f.impact = .medium) := by
  simp only [crossFactors] at hf
  split_ifs at hf <;>
    first
      | (rw [List.mem_singleton] at hf; subst hf; exact ⟨rfl, Or.inl rfl⟩)
      | (rw [List.mem_singleton] at hf; subst hf; exact ⟨rfl, Or.inr rfl⟩)
      | cases hf

/-- Every factor the seasonal check emits. -/
theorem mem_seasonalFactors (ms : List SalesRecord) (a0 : Analysis) (f : Factor)
    (hf : f ∈ seasonalFactors ms a0) :
    f.type = "seasonal_expected" ∧ (f.impact = .high ∨ f.impact = .medium) := by
  simp only [seasonalFactors] at hf
  split_ifs at hf <;>
    first
      | (rw [List.mem_singleton] at hf; subst hf; exact ⟨rfl, Or.inl rfl⟩)
      | (rw [List.mem_singleton] at hf; subst hf; exact ⟨rfl, Or.inr rfl⟩)
      | cases hf

/-- Every factor the detector emits carries impact high or medium; the low
tier is never assigned. -/
theorem mem_detectFactors_impact (pt : PeriodType) (sales ms : List SalesRecord)
    (camps : List Campaign) (a0 : Analysis) (f : Factor)
    (hf : f ∈ detectFactors pt sales ms camps a0) :
    f.impact = .high ∨ f.impact = .medium := by
  simp only [detectFactors, List.mem_append] at hf
  rcases hf with ((((hf | hf) | hf) | hf) | hf) | hf
  · exact (mem_campaignFactors _ _ _ _ hf).2
  · exact (mem_geoFactors _ _ _ hf).2
  · exact (mem_demoFactors _ _ _ hf).2
  · exact (mem_sustainedFactors _ _ _ hf).2
  · exact (mem_crossFactors _ _ hf).2
  · exact (mem_seasonalFactors _ _ _ hf).2

/-- With no campaigns supplied, the detector emits no campaign factor. -/
theorem mem_detectFactors_no_campaign (pt : PeriodType) (sales ms : List SalesRecord)
    (a0 : Analysis) (f : Factor)
    (hf : f ∈ detectFactors pt sales ms [] a0) :
    f.type ≠ "campaign" := by
  simp only [detectFactors, campaignFactors_nil, List.nil_append, List.mem_append] at hf
  rcases hf with (((hf | hf) | hf) | hf) | hf
  · rw [(mem_geoFactors _ _ _ hf).1]; decide
  · rw [(mem_demoFactors _ _ _ hf).1]; decide
  · rw [(mem_sustainedFactors _ _ _ hf).1]; decide
  · rw [(mem_crossFactors _ _ hf).1]; decide
  · rw [(mem_seasonalFactors _ _ _ hf).1]; decide

/-- The base confidence is always one of the integer tier constants. -/
theorem baseConfidence_int (s : ℚ) : ∃ z : Int, baseConfidence s = (z : ℚ) := by
  unfold baseConfidence
  split_ifs
  exacts [⟨1, by norm_num⟩, ⟨2, by norm_num⟩, ⟨4, by norm_num⟩, ⟨7, by norm_num⟩,
    ⟨10, by norm_num⟩, ⟨5, by norm_num⟩, ⟨10, by norm_num⟩, ⟨20, by norm_num⟩,
    ⟨35, by norm_num⟩, ⟨55, by norm_num⟩, ⟨75, by norm_num⟩]

/-- On high- or medium-impact factors the reducing adjustment is integral
(the half-point branch belongs to the low tier only). -/
theorem redAdj_int (neg : Bool) (f : Factor) (h : f.impact = .high ∨ f.impact = .medium) :
    ∃ z : Int, redAdj neg f = (z : ℚ) := by
  rcases h with h | h <;> cases neg <;>
    simp only [redAdj, h, Bool.false_eq_true, if_false, if_true, reduceCtorEq, reduceIte]
  · exact ⟨15, by norm_num⟩
  · exact ⟨2, by norm_num⟩
  · exact ⟨8, by norm_num⟩
  · exact ⟨1, by norm_num⟩

/-- On high- or medium-impact factors the increasing adjustment is integral. -/
theorem incAdj_int (neg : Bool) (f : Factor) (h : f.impact = .high ∨ f.impact = .medium) :
    ∃ z : Int, incAdj neg f = (z : ℚ) := by
  rcases h with h | h <;> cases neg <;>
    simp only [incAdj, h, Bool.false_eq_true, if_false, if_true, reduceCtorEq, reduceIte]
  · exact ⟨12, by norm_num⟩
  · exact ⟨2, by norm_num⟩
  · exact ⟨6, by norm_num⟩
  · exact ⟨1, by norm_num⟩

/-- A sum of integral rationals is integral. -/
theorem sum_int (l : List ℚ) (h : ∀ x ∈ l, ∃ z : Int, x = (z : ℚ)) :
    ∃ z : Int, l.sum = (z : ℚ) := by
  induction l with
  | nil => exact ⟨0, by simp⟩
  | cons x xs ih =>
    obtain ⟨z1, h1⟩ := h x (List.mem_cons_self x xs)
    obtain ⟨z2, h2⟩ := ih (fun y hy => h y (List.mem_cons_of_mem x hy))
    exact ⟨z1 + z2, by rw [List.sum_cons, h1, h2]; exact (Int.cast_add z1 z2).symm⟩

/-- When every factor of an analysis has impact high or medium, the
factor-adjusted confidence before any clamping is integer-valued. -/
theorem adjustedConfidence_int (a : Analysis)
    (h : ∀ f ∈ a.factors, f.impact = .high ∨ f.impact = .medium) :
    ∃ z : Int, adjustedConfidence a = (z : ℚ) := by
  obtain ⟨zb, hb⟩ := baseConfidence_int a.spike_percentage
  obtain ⟨zr, hr⟩ := sum_int
    ((a.factors.filter (fun f => f.reduces)).map (redAdj (decide (a.spike_percentage < 0))))
    (by
      intro x hx
      obtain ⟨g, hg, rfl⟩ := List.mem_map.mp hx
      exact redAdj_int _ g (h g (List.mem_filter.mp hg).1))
  obtain ⟨zi, hi⟩ := sum_int
    ((a.factors.filter (fun f => f.increases)).map (incAdj (decide (a.spike_percentage < 0))))
    (by
      intro x hx
      obtain ⟨g, hg, rfl⟩ := List.mem_map.mp hx
      exact incAdj_int _ g (h g (List.mem_filter.mp hg).1))
  refine ⟨zb - zr + zi, ?_⟩
  rw [adjustedConfidence]
  rw [hb, hr, hi]
  push_cast
  ring

/-- C10: every factor the analyzer emits has impact high or medium, never
low; consequently the factor-adjusted confidence of any analysis it produces
is integer-valued before the clamps. -/
theorem C10_theorem (med : String) (pt : PeriodType) (sales : List SalesRecord)
    (camps : List Campaign) (a : Analysis)
    (h : analyze_sales_spike_factors med pt sales camps = some a) :
    (∀ f ∈ a.factors, f.impact = .high ∨ f.impact = .medium) ∧
    ∃ z : Int, adjustedConfidence a = (z : ℚ) := by
  have hfac : ∀ f ∈ a.factors, f.impact = .high ∨ f.impact = .medium := by
    simp only [analyze_sales_spike_factors] at h
    split_ifs at h with h0 <;>
      (rcases Option.some.inj h with rfl
       intro f hf
       exact mem_detectFactors_impact _ _ _ _ _ _ hf)
  exact ⟨hfac, adjustedConfidence_int a hfac⟩

unseal Rat.mul Rat.add Rat.sub Rat.inv in
/-- Witness for C10 at the single-record history. -/
theorem C10_witness :
    (∀ f ∈ exC4analysis.factors, f.impact = .high ∨ f.impact = .medium) ∧
    ∃ z : Int, adjustedConfidence exC4analysis = (z : ℚ) :=
  C10_theorem "M" .Monthly [exR1] [] exC4analysis (by decide)

/-- C6: with a match for the medicine, running the analyzer against an empty
campaign collection still returns an analysis, and no campaign factor is
emitted. -/
theorem C6_theorem (med : String) (pt : PeriodType) (sales : List SalesRecord)
    (h : msOf med sales ≠ []) :
    (analyze_sales_spike_factors med pt sales []).isSome = true ∧
    ∀ a, analyze_sales_spike_factors med pt sales [] = some a →
      ∀ f ∈ a.factors, f.type ≠ "campaign" := by
  constructor
  · simp only [analyze_sales_spike_factors]
    rw [if_neg (fun hc => h (List.length_eq_zero.mp hc))]
    rfl
  · intro a ha
    simp only [analyze_sales_spike_factors] at ha
    split_ifs at ha with h0 <;>
      (rcases Option.some.inj ha with rfl
       intro f hf
       exact mem_detectFactors_no_campaign _ _ _ _ _ hf)

unseal Rat.mul Rat.add Rat.sub Rat.inv in
/-- Witness for C6 at the single-record history. -/
theorem C6_witness :
    (analyze_sales_spike_factors "M" .Monthly [exR1] []).isSome = true ∧
    ∀ a, analyze_sales_spike_factors "M" .Monthly [exR1] [] = some a →
      ∀ f ∈ a.factors, f.type ≠ "campaign" :=
  C6_theorem "M" .Monthly [exR1] (by decide)

/-- C8: in sufficient-data mode every selected period is valid — the current
period is the last valid period, the baseline is the mean of the other valid
periods, each selected period meets the span threshold, and a period below
the threshold is never in the valid list. -/
theorem C8_theorem (med : String) (pt : PeriodType) (sales : List SalesRecord)
    (camps : List Campaign) (a : Analysis)
    (h : analyze_sales_spike_factors med pt sales camps = some a)
    (hs : a.insufficient_data = false) :
    2 ≤ (validPeriodsOf pt (msOf med sales)).length ∧
    minDays pt ≤ ((validPeriodsOf pt (msOf med sales)).getLastD defaultPeriod).period_days ∧
    (∀ p ∈ (validPeriodsOf pt (msOf med sales)).dropLast, minDays pt ≤ p.period_days) ∧
    (∀ p ∈ periodsOf pt (msOf med sales), p.period_days < minDays pt →
      p ∉ validPeriodsOf pt (msOf med sales)) ∧
    a.current_sales = ((validPeriodsOf pt (msOf med sales)).getLastD defaultPeriod).total_quantity ∧
    a.baseline_avg =
      ((validPeriodsOf pt (msOf med sales)).dropLast.map (fun p => p.total_quantity)).sum /
        ((validPeriodsOf pt (msOf med sales)).dropLast.length : ℚ) := by
  simp only [analyze_sales_spike_factors] at h
  split_ifs at h with h0 h1
  · rcases Option.some.inj h with rfl
    exact absurd hs (by simp [insufficientAnalysis])
  · rcases Option.some.inj h with rfl
    have hlen : 2 ≤ (validPeriodsOf pt (msOf med sales)).length := not_lt.mp h1
    have hne : validPeriodsOf pt (msOf med sales) ≠ [] :=
      List.length_pos.mp (lt_of_lt_of_le (by norm_num) hlen)
    refine ⟨hlen, ?_, ?_, ?_, rfl, rfl⟩
    · have hmem := getLastD_mem (validPeriodsOf pt (msOf med sales)) defaultPeriod hne
      exact of_decide_eq_true (List.mem_filter.mp hmem).2
    · intro p hp
      have hmem := List.dropLast_subset (validPeriodsOf pt (msOf med sales)) hp
      exact of_decide_eq_true (List.mem_filter.mp hmem).2
    · intro p _ hlt hmem
      exact absurd (of_decide_eq_true (List.mem_filter.mp hmem).2) (not_le.mpr hlt)

/-- Four records giving two complete monthly buckets (spans of 25 days). -/
def exS1 : SalesRecord :=
  { medicine_name := "M", category := "C", branch_name := "B1",
    date := ⟨2021, 1, 1⟩, hour := 9, age_group := "A1", quantity := 10 }

/-- Second January record, 25 days into the month. -/
def exS2 : SalesRecord :=
  { medicine_name := "M", category := "C", branch_name := "B1",
    date := ⟨2021, 1, 25⟩, hour := 9, age_group := "A1", quantity := 10 }

/-- First February record. -/
def exS3 : SalesRecord :=
  { medicine_name := "M", category := "C", branch_name := "B1",
    date := ⟨2021, 2, 1⟩, hour := 9, age_group := "A1", quantity := 30 }

/-- Second February record, 25 days into the month. -/
def exS4 : SalesRecord :=
  { medicine_name := "M", category := "C", branch_name := "B1",
    date := ⟨2021, 2, 25⟩, hour := 9, age_group := "A1", quantity := 5 }

/-- Two-complete-month history for the sufficient-data mode. -/
def exC8sales : List SalesRecord := [exS1, exS2, exS3, exS4]

/-- The analysis the engine returns on `exC8sales`: February (35 units) is
current against the January baseline of 20, a 75 percent spike. -/
def exC8analysis : Analysis :=
  { medicine := "M", period_type := .Monthly, current_sales := 35,
    baseline_avg := 20, spike_percentage := 75,
    period_start := ⟨2021, 2, 1⟩, period_end := ⟨2021, 2, 25⟩,
    factors := [{ type := "geographic_spread", impact := .high, reduces := false, increases := true },
                { type := "demographics", impact := .high, reduces := false, increases := true }],
    insufficient_data := false, period_count := 2, debug_info := none }

unseal Rat.mul Rat.add Rat.sub Rat.inv in
/-- Witness for C8 at the two-complete-month history. -/
theorem C8_witness :
    2 ≤ (validPeriodsOf .Monthly (msOf "M" exC8sales)).length ∧
    minDays .Monthly ≤ ((validPeriodsOf .Monthly (msOf "M" exC8sales)).getLastD defaultPeriod).period_days ∧
    (∀ p ∈ (validPeriodsOf .Monthly (msOf "M" exC8sales)).dropLast, minDays .Monthly ≤ p.period_days) ∧
    (∀ p ∈ periodsOf .Monthly (msOf "M" exC8sales), p.period_days < minDays .Monthly →
      p ∉ validPeriodsOf .Monthly (msOf "M" exC8sales)) ∧
    exC8analysis.current_sales = ((validPeriodsOf .Monthly (msOf "M" exC8sales)).getLastD defaultPeriod).total_quantity ∧
    exC8analysis.baseline_avg =
      ((validPeriodsOf .Monthly (msOf "M" exC8sales)).dropLast.map (fun p => p.total_quantity)).sum /
        ((validPeriodsOf .Monthly (msOf "M" exC8sales)).dropLast.length : ℚ) :=
  C8_theorem "M" .Monthly exC8sales [] exC8analysis (by decide) (by decide)
